import Mathlib

/-!
Shallow embedding of `src/chains/serializers.py` from safe-config-service.

The serializers turn database records (Chain, GasPrice, Wallet, Feature)
into JSON-like representations.  The record types themselves live in
`src/chains/models.py`, which is not part of the sources; their fields are
reconstructed from the attribute accesses the serializers perform and from
the specification (they are plain data carriers).  Django/DRF framework
behaviour is embedded as follows: dictionaries become association lists in
declaration order, `order_by` becomes a sort by the named column,
`serializers.CharField(source=...)`/`URLField(...)` become field reads
rendered as JSON strings (or null for a missing optional value), and a
raised `APIException` becomes the `Except.error` branch carrying the
exception message.
-/

namespace SafeConfig

/-- JSON-like values produced by the serializers: the shape of DRF's
`ReturnDict`/list output, with objects as association lists that keep the
declaration order of the serializer fields. -/
inductive JValue where
  | null
  | str (s : String)
  | num (n : Int)
  | bool (b : Bool)
  | arr (elems : List JValue)
  | obj (fields : List (String × JValue))
deriving Repr

/-- Python truthiness of an optional string attribute: `None` and the empty
string are falsy, any other string is truthy. -/
def pyTruthy : Option String → Bool
  | none => false
  | some s => s != ""

/-- Rendering of an optional string attribute: `None` becomes JSON null. -/
def jOfOpt : Option String → JValue
  | none => JValue.null
  | some s => JValue.str s

/-- Key lookup in a JSON object (none on non-objects and missing keys). -/
def jLookup (k : String) : JValue → Option JValue
  | JValue.obj fields => List.lookup k fields
  | _ => none

/-- The ordered key list of a JSON object (none on non-objects). -/
def jKeys : JValue → Option (List String)
  | JValue.obj fields => some (fields.map Prod.fst)
  | _ => none

/-- Modelled from the spec: the `GasPrice` record of `chains/models.py`
(the models module is not under the sources).  It carries the fields the
serializers read: `oracle_uri`, `oracle_parameter`, `fixed_wei_value`
(optional columns), `gwei_factor` (a decimal, kept here in its rendered
form), the `rank` used for ordering, and `chain`, the string rendering of
the related chain record used in the exception message, which per the
spec reports the chain identifier. -/
structure GasPrice where
  chain : String
  oracle_uri : Option String
  oracle_parameter : Option String
  gwei_factor : String
  fixed_wei_value : Option String
  rank : Int
deriving Repr, DecidableEq

/-- Modelled from the spec: a `Wallet` record; the serializer reads only
its `key`. -/
structure Wallet where
  key : String
deriving Repr, DecidableEq

/-- Modelled from the spec: a `Feature` record; the serializer reads only
its `key`. -/
structure Feature where
  key : String
deriving Repr, DecidableEq

/-- Modelled from the spec: the `Chain` record of `chains/models.py`, with
the fields the chain serializers read.  Related sets (`gasprice_set`,
`get_disabled_wallets()`, `feature_set`) are carried as lists in database
order.  `transaction_service_uri` and `ens_registry_address` are optional
columns; the remaining columns are non-null. -/
structure Chain where
  id : Int
  name : String
  short_name : String
  description : String
  l2 : Bool
  rpc_authentication : String
  rpc_uri : String
  safe_apps_rpc_authentication : String
  safe_apps_rpc_uri : String
  block_explorer_uri_address_template : String
  block_explorer_uri_tx_hash_template : String
  block_explorer_uri_api_template : String
  currency_name : String
  currency_symbol : String
  currency_decimals : Int
  currency_logo_uri : String
  transaction_service_uri : Option String
  vpc_transaction_service_uri : String
  theme_text_color : String
  theme_background_color : String
  ens_registry_address : Option String
  recommended_master_copy_version : String
  gasprices : List GasPrice
  disabled_wallets : List Wallet
  features : List Feature
deriving Repr, DecidableEq

/-- `GasPriceOracleSerializer`: type tag "oracle", `uri` from `oracle_uri`,
`gas_parameter` from `oracle_parameter`, `gwei_factor` as a decimal. -/
def GasPriceOracleSerializer.data (g : GasPrice) : JValue :=
  JValue.obj [("type", JValue.str "oracle"),
              ("uri", jOfOpt g.oracle_uri),
              ("gas_parameter", jOfOpt g.oracle_parameter),
              ("gwei_factor", JValue.str g.gwei_factor)]

/-- `GasPriceFixedSerializer`: type tag "fixed", `wei_value` from
`fixed_wei_value`. -/
def GasPriceFixedSerializer.data (g : GasPrice) : JValue :=
  JValue.obj [("type", JValue.str "fixed"),
              ("wei_value", jOfOpt g.fixed_wei_value)]

/-- The message of the `APIException` raised by
`GasPriceSerializer.to_representation`. -/
def gasPriceErrorMessage (g : GasPrice) : String :=
  "The gas price oracle or a fixed gas price was not provided for chain " ++ g.chain

/-- `GasPriceSerializer.to_representation`:
`if instance.oracle_uri and instance.fixed_wei_value is None` return the
oracle data; `elif instance.fixed_wei_value and instance.oracle_uri is None`
return the fixed data; else raise `APIException(...)`. -/
def GasPriceSerializer.to_representation (g : GasPrice) : Except String JValue :=
  if pyTruthy g.oracle_uri && g.fixed_wei_value.isNone then
    Except.ok (GasPriceOracleSerializer.data g)
  else if pyTruthy g.fixed_wei_value && g.oracle_uri.isNone then
    Except.ok (GasPriceFixedSerializer.data g)
  else
    Except.error (gasPriceErrorMessage g)

/-- `ThemeSerializer`. -/
def ThemeSerializer.data (c : Chain) : JValue :=
  JValue.obj [("text_color", JValue.str c.theme_text_color),
              ("background_color", JValue.str c.theme_background_color)]

/-- `CurrencySerializer`. -/
def CurrencySerializer.data (c : Chain) : JValue :=
  JValue.obj [("name", JValue.str c.currency_name),
              ("symbol", JValue.str c.currency_symbol),
              ("decimals", JValue.num c.currency_decimals),
              ("logo_uri", JValue.str c.currency_logo_uri)]

/-- `RpcUriSerializer` (a `BaseRpcUriSerializer` with `authentication` and
`value` read from `rpc_authentication` / `rpc_uri`). -/
def RpcUriSerializer.data (c : Chain) : JValue :=
  JValue.obj [("authentication", JValue.str c.rpc_authentication),
              ("value", JValue.str c.rpc_uri)]

/-- `SafeAppsRpcUriSerializer` (a `BaseRpcUriSerializer` reading
`safe_apps_rpc_authentication` / `safe_apps_rpc_uri`). -/
def SafeAppsRpcUriSerializer.data (c : Chain) : JValue :=
  JValue.obj [("authentication", JValue.str c.safe_apps_rpc_authentication),
              ("value", JValue.str c.safe_apps_rpc_uri)]

/-- `BlockExplorerUriTemplateSerializer`. -/
def BlockExplorerUriTemplateSerializer.data (c : Chain) : JValue :=
  JValue.obj [("address", JValue.str c.block_explorer_uri_address_template),
              ("tx_hash", JValue.str c.block_explorer_uri_tx_hash_template),
              ("api", JValue.str c.block_explorer_uri_api_template)]

/-- `FeatureSerializer.to_representation` returns `instance.key`. -/
def FeatureSerializer.to_representation (f : Feature) : String := f.key

/-- `WalletSerializer.to_representation` returns `instance.key`. -/
def WalletSerializer.to_representation (w : Wallet) : String := w.key

/-- Ordering relation of Django `order_by("key")` on wallets. -/
def walletKeyLE (a b : Wallet) : Prop := a.key ≤ b.key

instance : DecidableRel walletKeyLE :=
  fun a b => inferInstanceAs (Decidable (a.key ≤ b.key))

instance : IsTotal Wallet walletKeyLE := ⟨fun a b => le_total a.key b.key⟩

instance : IsTrans Wallet walletKeyLE :=
  ⟨fun _ _ _ hab hbc => le_trans hab hbc⟩

/-- Ordering relation of Django `order_by("key")` on features. -/
def featureKeyLE (a b : Feature) : Prop := a.key ≤ b.key

instance : DecidableRel featureKeyLE :=
  fun a b => inferInstanceAs (Decidable (a.key ≤ b.key))

instance : IsTotal Feature featureKeyLE := ⟨fun a b => le_total a.key b.key⟩

instance : IsTrans Feature featureKeyLE :=
  ⟨fun _ _ _ hab hbc => le_trans hab hbc⟩

/-- Ordering relation of Django `order_by("rank")` on gas prices. -/
def gasPriceRankLE (a b : GasPrice) : Prop := a.rank ≤ b.rank

instance : DecidableRel gasPriceRankLE :=
  fun a b => inferInstanceAs (Decidable (a.rank ≤ b.rank))

instance : IsTotal GasPrice gasPriceRankLE := ⟨fun a b => le_total a.rank b.rank⟩

instance : IsTrans GasPrice gasPriceRankLE :=
  ⟨fun _ _ _ hab hbc => le_trans hab hbc⟩

/-- `ChainSerializer.get_gas_price`: serialize `gasprice_set` ordered by
`rank`; any record that raises makes the whole representation raise. -/
def ChainSerializer.get_gas_price (c : Chain) : Except String (List JValue) :=
  (List.insertionSort gasPriceRankLE c.gasprices).mapM
    GasPriceSerializer.to_representation

/-- `ChainSerializer.get_disabled_wallets`: keys of the chain's disabled
wallets ordered by `key`. -/
def ChainSerializer.get_disabled_wallets (c : Chain) : JValue :=
  JValue.arr ((List.insertionSort walletKeyLE c.disabled_wallets).map
    (fun w => JValue.str (WalletSerializer.to_representation w)))

/-- `ChainSerializer.get_features`: keys of `feature_set` ordered by `key`. -/
def ChainSerializer.get_features (c : Chain) : JValue :=
  JValue.arr ((List.insertionSort featureKeyLE c.features).map
    (fun f => JValue.str (FeatureSerializer.to_representation f)))

/-- `ChainSerializer`: the representation of a chain, fields in the order of
`Meta.fields`.  `chain_id` is a `CharField` sourced from `id`;
`transaction_service` is a `URLField` sourced from `transaction_service_uri`
with `default=None`, so a missing value renders as null. -/
def ChainSerializer.to_representation (c : Chain) : Except String JValue :=
  match ChainSerializer.get_gas_price c with
  | Except.error e => Except.error e
  | Except.ok gas => Except.ok (JValue.obj [
    ("chain_id", JValue.str (toString c.id)),
    ("chain_name", JValue.str c.name),
    ("short_name", JValue.str c.short_name),
    ("description", JValue.str c.description),
    ("l2", JValue.bool c.l2),
    ("rpc_uri", RpcUriSerializer.data c),
    ("safe_apps_rpc_uri", SafeAppsRpcUriSerializer.data c),
    ("block_explorer_uri_template", BlockExplorerUriTemplateSerializer.data c),
    ("native_currency", CurrencySerializer.data c),
    ("transaction_service", jOfOpt c.transaction_service_uri),
    ("vpc_transaction_service", JValue.str c.vpc_transaction_service_uri),
    ("theme", ThemeSerializer.data c),
    ("gas_price", JValue.arr gas),
    ("ens_registry_address", jOfOpt c.ens_registry_address),
    ("recommended_master_copy_version", JValue.str c.recommended_master_copy_version),
    ("disabled_wallets", ChainSerializer.get_disabled_wallets c),
    ("features", ChainSerializer.get_features c)])

/-- The `Meta.fields` list of `ChainSerializer`. -/
def chainFieldNames : List String :=
  ["chain_id", "chain_name", "short_name", "description", "l2", "rpc_uri",
   "safe_apps_rpc_uri", "block_explorer_uri_template", "native_currency",
   "transaction_service", "vpc_transaction_service", "theme", "gas_price",
   "ens_registry_address", "recommended_master_copy_version",
   "disabled_wallets", "features"]

/-- A representation that reads the serializer both as output and as the
instance it leaves behind: the source only reads attributes, so the
instance comes back unchanged. -/
def GasPriceSerializer.serialize (g : GasPrice) : Except String JValue × GasPrice :=
  (GasPriceSerializer.to_representation g, g)

/-- As `GasPriceSerializer.serialize`, for the chain serializer. -/
def ChainSerializer.serialize (c : Chain) : Except String JValue × Chain :=
  (ChainSerializer.to_representation c, c)

/-- The serializer answered with an oracle-tagged representation. -/
def OracleOutcome (g : GasPrice) : Prop :=
  ∃ v, GasPriceSerializer.to_representation g = Except.ok v ∧
    jLookup "type" v = some (JValue.str "oracle")

/-- The serializer answered with a fixed-tagged representation. -/
def FixedOutcome (g : GasPrice) : Prop :=
  ∃ v, GasPriceSerializer.to_representation g = Except.ok v ∧
    jLookup "type" v = some (JValue.str "fixed")

/-- The serializer raised an `APIException`. -/
def ErrorOutcome (g : GasPrice) : Prop :=
  ∃ m, GasPriceSerializer.to_representation g = Except.error m

/-- Sample gas price record configured with an oracle only. -/
def gpOracleRank1 : GasPrice :=
  { chain := "Ethereum | chain_id=1", oracle_uri := some "https://oracle.example",
    oracle_parameter := some "fast", gwei_factor := "1.000000000",
    fixed_wei_value := none, rank := 1 }

/-- Sample gas price record configured with a fixed value only. -/
def gpFixedRank2 : GasPrice :=
  { chain := "Ethereum | chain_id=1", oracle_uri := none,
    oracle_parameter := none, gwei_factor := "1.000000000",
    fixed_wei_value := some "24000000000", rank := 2 }

/-- Sample gas price record with both an oracle and a fixed value. -/
def gpBoth : GasPrice :=
  { chain := "Goerli | chain_id=5", oracle_uri := some "https://oracle.example",
    oracle_parameter := none, gwei_factor := "1.000000000",
    fixed_wei_value := some "24000000000", rank := 0 }

/-- Sample gas price record with neither an oracle nor a fixed value. -/
def gpNeither : GasPrice :=
  { chain := "Goerli | chain_id=5", oracle_uri := none,
    oracle_parameter := none, gwei_factor := "1.000000000",
    fixed_wei_value := none, rank := 1 }

theorem pyTruthy_isNone_false {x : Option String} (h : pyTruthy x = true) :
    x.isNone = false := by
  cases x with
  | none => simp [pyTruthy] at h
  | some s => rfl

/-- Claim C1: for a gas price record whose `oracle_uri` is populated with a
usable (truthy) value while `fixed_wei_value` is not populated (`None`),
`GasPriceSerializer.to_representation` returns an object with type
"oracle" and fields `uri`, `gas_parameter`, `gwei_factor` carrying the
record's `oracle_uri`, `oracle_parameter` and `gwei_factor`. -/
theorem gasPrice_oracle_only_repr (g : GasPrice)
    (h1 : pyTruthy g.oracle_uri = true) (h2 : g.fixed_wei_value = none) :
    GasPriceSerializer.to_representation g =
      Except.ok (JValue.obj [("type", JValue.str "oracle"),
                             ("uri", jOfOpt g.oracle_uri),
                             ("gas_parameter", jOfOpt g.oracle_parameter),
                             ("gwei_factor", JValue.str g.gwei_factor)]) := by
  simp [GasPriceSerializer.to_representation, GasPriceOracleSerializer.data, h1, h2]

/-- Claim C1 witness at a concrete oracle-only record. -/
theorem gasPrice_oracle_only_repr_witness :
    GasPriceSerializer.to_representation gpOracleRank1 =
      Except.ok (JValue.obj [("type", JValue.str "oracle"),
                             ("uri", jOfOpt gpOracleRank1.oracle_uri),
                             ("gas_parameter", jOfOpt gpOracleRank1.oracle_parameter),
                             ("gwei_factor", JValue.str gpOracleRank1.gwei_factor)]) :=
  gasPrice_oracle_only_repr gpOracleRank1 (by decide) rfl

/-- Claim C2: for a gas price record whose `fixed_wei_value` is populated
with a usable (truthy) value while `oracle_uri` is not populated (`None`),
`GasPriceSerializer.to_representation` returns an object with type
"fixed" and a `wei_value` field carrying the record's `fixed_wei_value`. -/
theorem gasPrice_fixed_only_repr (g : GasPrice)
    (h1 : pyTruthy g.fixed_wei_value = true) (h2 : g.oracle_uri = none) :
    GasPriceSerializer.to_representation g =
      Except.ok (JValue.obj [("type", JValue.str "fixed"),
                             ("wei_value", jOfOpt g.fixed_wei_value)]) := by
  have hfalse : pyTruthy none = false := rfl
  simp [GasPriceSerializer.to_representation, GasPriceFixedSerializer.data,
    h1, h2, hfalse]

/-- Claim C2 witness at a concrete fixed-only record. -/
theorem gasPrice_fixed_only_repr_witness :
    GasPriceSerializer.to_representation gpFixedRank2 =
      Except.ok (JValue.obj [("type", JValue.str "fixed"),
                             ("wei_value", jOfOpt gpFixedRank2.fixed_wei_value)]) :=
  gasPrice_fixed_only_repr gpFixedRank2 (by decide) rfl

/-- Claim C3: with both `oracle_uri` and `fixed_wei_value` populated
(truthy), or with neither populated, the serializer raises an
`APIException` whose message reports the offending chain identifier, and
returns no representation. -/
theorem gasPrice_invalid_raises (g : GasPrice)
    (h : (pyTruthy g.oracle_uri = true ∧ pyTruthy g.fixed_wei_value = true) ∨
         (pyTruthy g.oracle_uri = false ∧ pyTruthy g.fixed_wei_value = false)) :
    GasPriceSerializer.to_representation g = Except.error (gasPriceErrorMessage g) ∧
    gasPriceErrorMessage g =
      "The gas price oracle or a fixed gas price was not provided for chain "
        ++ g.chain := by
  refine ⟨?_, rfl⟩
  rcases h with ⟨h1, h2⟩ | ⟨h1, h2⟩
  · simp [GasPriceSerializer.to_representation, h1, h2,
      pyTruthy_isNone_false h1, pyTruthy_isNone_false h2]
  · simp [GasPriceSerializer.to_representation, h1, h2]

/-- Claim C3 witness at a both-populated and a neither-populated record. -/
theorem gasPrice_invalid_raises_witness :
    (GasPriceSerializer.to_representation gpBoth =
        Except.error (gasPriceErrorMessage gpBoth) ∧
      gasPriceErrorMessage gpBoth =
        "The gas price oracle or a fixed gas price was not provided for chain "
          ++ gpBoth.chain) ∧
    (GasPriceSerializer.to_representation gpNeither =
        Except.error (gasPriceErrorMessage gpNeither) ∧
      gasPriceErrorMessage gpNeither =
        "The gas price oracle or a fixed gas price was not provided for chain "
          ++ gpNeither.chain) :=
  ⟨gasPrice_invalid_raises gpBoth (Or.inl ⟨by decide, by decide⟩),
   gasPrice_invalid_raises gpNeither (Or.inr ⟨by decide, by decide⟩)⟩

/-- Claim C8: every gas price record has exactly one of three outcomes: an
oracle-tagged representation, a fixed-tagged representation, or an
`APIException`; the outcomes are pairwise exclusive and the two guard
conditions of the branching cannot hold together. -/
theorem gasPrice_outcome_trichotomy (g : GasPrice) :
    (OracleOutcome g ∨ FixedOutcome g ∨ ErrorOutcome g) ∧
    ¬(OracleOutcome g ∧ FixedOutcome g) ∧
    ¬(OracleOutcome g ∧ ErrorOutcome g) ∧
    ¬(FixedOutcome g ∧ ErrorOutcome g) ∧
    ¬((pyTruthy g.oracle_uri && g.fixed_wei_value.isNone) = true ∧
      (pyTruthy g.fixed_wei_value && g.oracle_uri.isNone) = true) := by
  refine ⟨?_, ?_, ?_, ?_, ?_⟩
  · by_cases h1 : (pyTruthy g.oracle_uri && g.fixed_wei_value.isNone) = true
    · refine Or.inl ⟨GasPriceOracleSerializer.data g, ?_, ?_⟩
      · simp [GasPriceSerializer.to_representation, h1]
      · simp [GasPriceOracleSerializer.data, jLookup, List.lookup]
    · by_cases h2 : (pyTruthy g.fixed_wei_value && g.oracle_uri.isNone) = true
      · refine Or.inr (Or.inl ⟨GasPriceFixedSerializer.data g, ?_, ?_⟩)
        · simp [GasPriceSerializer.to_representation, h1, h2]
        · simp [GasPriceFixedSerializer.data, jLookup, List.lookup]
      · exact Or.inr (Or.inr ⟨gasPriceErrorMessage g,
          by simp [GasPriceSerializer.to_representation, h1, h2]⟩)
  · rintro ⟨⟨v, hv, ht⟩, ⟨v2, hv2, ht2⟩⟩
    rw [hv] at hv2
    injection hv2 with hv2
    subst hv2
    rw [ht] at ht2
    simp at ht2
  · rintro ⟨⟨v, hv, _⟩, ⟨m, hm⟩⟩
    rw [hv] at hm
    cases hm
  · rintro ⟨⟨v, hv, _⟩, ⟨m, hm⟩⟩
    rw [hv] at hm
    cases hm
  · rintro ⟨h1, h2⟩
    rw [Bool.and_eq_true] at h1 h2
    have hn : g.fixed_wei_value = none := Option.isNone_iff_eq_none.mp h1.2
    rw [hn] at h2
    simp [pyTruthy] at h2

/-- Sample chain record; its related lists are deliberately out of order to
exercise the sorting performed by the serializer. -/
def chainSample : Chain :=
  { id := 1, name := "Ethereum", short_name := "eth", description := "Mainnet",
    l2 := false, rpc_authentication := "API_KEY_PATH",
    rpc_uri := "https://rpc.example",
    safe_apps_rpc_authentication := "NO_AUTHENTICATION",
    safe_apps_rpc_uri := "https://apps-rpc.example",
    block_explorer_uri_address_template := "https://explorer.example/address",
    block_explorer_uri_tx_hash_template := "https://explorer.example/tx",
    block_explorer_uri_api_template := "https://explorer.example/api",
    currency_name := "Ether", currency_symbol := "ETH", currency_decimals := 18,
    currency_logo_uri := "https://logo.example/eth.png",
    transaction_service_uri := none,
    vpc_transaction_service_uri := "https://tx.example",
    theme_text_color := "#001428", theme_background_color := "#E8E7E6",
    ens_registry_address := some "0x00000000000C2E074eC69A0dFb2997BA6C7d2e1e",
    recommended_master_copy_version := "1.3.0",
    gasprices := [gpFixedRank2, gpOracleRank1],
    disabled_wallets := [{ key := "walletConnect" }],
    features := [{ key := "EIP1559" }] }

/-- The representation of `chainSample`, written out. -/
def chainReprSample : JValue :=
  JValue.obj [
    ("chain_id", JValue.str "1"),
    ("chain_name", JValue.str "Ethereum"),
    ("short_name", JValue.str "eth"),
    ("description", JValue.str "Mainnet"),
    ("l2", JValue.bool false),
    ("rpc_uri", JValue.obj [("authentication", JValue.str "API_KEY_PATH"),
                            ("value", JValue.str "https://rpc.example")]),
    ("safe_apps_rpc_uri",
      JValue.obj [("authentication", JValue.str "NO_AUTHENTICATION"),
                  ("value", JValue.str "https://apps-rpc.example")]),
    ("block_explorer_uri_template",
      JValue.obj [("address", JValue.str "https://explorer.example/address"),
                  ("tx_hash", JValue.str "https://explorer.example/tx"),
                  ("api", JValue.str "https://explorer.example/api")]),
    ("native_currency",
      JValue.obj [("name", JValue.str "Ether"),
                  ("symbol", JValue.str "ETH"),
                  ("decimals", JValue.num 18),
                  ("logo_uri", JValue.str "https://logo.example/eth.png")]),
    ("transaction_service", JValue.null),
    ("vpc_transaction_service", JValue.str "https://tx.example"),
    ("theme", JValue.obj [("text_color", JValue.str "#001428"),
                          ("background_color", JValue.str "#E8E7E6")]),
    ("gas_price", JValue.arr [GasPriceOracleSerializer.data gpOracleRank1,
                              GasPriceFixedSerializer.data gpFixedRank2]),
    ("ens_registry_address",
      JValue.str "0x00000000000C2E074eC69A0dFb2997BA6C7d2e1e"),
    ("recommended_master_copy_version", JValue.str "1.3.0"),
    ("disabled_wallets", JValue.arr [JValue.str "walletConnect"]),
    ("features", JValue.arr [JValue.str "EIP1559"])]

theorem chain_repr_ok_shape (c : Chain) (v : JValue)
    (h : ChainSerializer.to_representation c = Except.ok v) :
    ∃ gas, ChainSerializer.get_gas_price c = Except.ok gas ∧
      v = JValue.obj [
        ("chain_id", JValue.str (toString c.id)),
        ("chain_name", JValue.str c.name),
        ("short_name", JValue.str c.short_name),
        ("description", JValue.str c.description),
        ("l2", JValue.bool c.l2),
        ("rpc_uri", RpcUriSerializer.data c),
        ("safe_apps_rpc_uri", SafeAppsRpcUriSerializer.data c),
        ("block_explorer_uri_template", BlockExplorerUriTemplateSerializer.data c),
        ("native_currency", CurrencySerializer.data c),
        ("transaction_service", jOfOpt c.transaction_service_uri),
        ("vpc_transaction_service", JValue.str c.vpc_transaction_service_uri),
        ("theme", ThemeSerializer.data c),
        ("gas_price", JValue.arr gas),
        ("ens_registry_address", jOfOpt c.ens_registry_address),
        ("recommended_master_copy_version",
          JValue.str c.recommended_master_copy_version),
        ("disabled_wallets", ChainSerializer.get_disabled_wallets c),
        ("features", ChainSerializer.get_features c)] := by
  unfold ChainSerializer.to_representation at h
  cases hg : ChainSerializer.get_gas_price c with
  | error e => rw [hg] at h; cases h
  | ok gas =>
    rw [hg] at h
    injection h with h2
    exact ⟨gas, rfl, h2.symm⟩

/-- Claim C4: the `disabled_wallets` and `features` arrays list exactly the
key strings of the chain's wallet and feature records, sorted by key in
ascending order. -/
theorem chain_wallets_features_sorted (c : Chain) :
    (∃ ws : List Wallet, ws.Perm c.disabled_wallets ∧
      ChainSerializer.get_disabled_wallets c =
        JValue.arr (ws.map (fun w => JValue.str w.key)) ∧
      (ws.map Wallet.key).Sorted (· ≤ ·)) ∧
    (∃ fs : List Feature, fs.Perm c.features ∧
      ChainSerializer.get_features c =
        JValue.arr (fs.map (fun f => JValue.str f.key)) ∧
      (fs.map Feature.key).Sorted (· ≤ ·)) := by
  constructor
  · refine ⟨List.insertionSort walletKeyLE c.disabled_wallets,
      List.perm_insertionSort _ _, rfl, ?_⟩
    exact List.Pairwise.map _ (fun a b hab => hab)
      (List.sorted_insertionSort walletKeyLE c.disabled_wallets)
  · refine ⟨List.insertionSort featureKeyLE c.features,
      List.perm_insertionSort _ _, rfl, ?_⟩
    exact List.Pairwise.map _ (fun a b hab => hab)
      (List.sorted_insertionSort featureKeyLE c.features)

/-- Claim C5: the `gas_price` array serializes the chain's gas price
records in ascending order of their `rank` field: the serialized list comes
from a permutation of `gasprice_set` whose ranks are sorted ascending. -/
theorem chain_gas_price_rank_sorted (c : Chain) (reprs : List JValue)
    (h : ChainSerializer.get_gas_price c = Except.ok reprs) :
    ∃ gs : List GasPrice, gs.Perm c.gasprices ∧
      (gs.map GasPrice.rank).Sorted (· ≤ ·) ∧
      gs.mapM GasPriceSerializer.to_representation = Except.ok reprs := by
  refine ⟨List.insertionSort gasPriceRankLE c.gasprices,
    List.perm_insertionSort _ _, ?_, h⟩
  exact List.Pairwise.map _ (fun a b hab => hab)
    (List.sorted_insertionSort gasPriceRankLE c.gasprices)

/-- Claim C5 witness at the sample chain, whose records are stored with
ranks 2 then 1 and come out serialized in rank order 1 then 2. -/
theorem chain_gas_price_rank_sorted_witness :
    ∃ gs : List GasPrice, gs.Perm chainSample.gasprices ∧
      (gs.map GasPrice.rank).Sorted (· ≤ ·) ∧
      gs.mapM GasPriceSerializer.to_representation =
        Except.ok [GasPriceOracleSerializer.data gpOracleRank1,
                   GasPriceFixedSerializer.data gpFixedRank2] :=
  chain_gas_price_rank_sorted chainSample
    [GasPriceOracleSerializer.data gpOracleRank1,
     GasPriceFixedSerializer.data gpFixedRank2] (by rfl)

/-- Claim C6: a successful chain representation is an object with exactly
the seventeen `Meta.fields` keys in order, and its `rpc_uri`,
`safe_apps_rpc_uri`, `block_explorer_uri_template`, `native_currency` and
`theme` members are objects carrying exactly the specified keys. -/
theorem chain_repr_field_layout (c : Chain) (v : JValue)
    (h : ChainSerializer.to_representation c = Except.ok v) :
    jKeys v = some chainFieldNames ∧
    (∃ r, jLookup "rpc_uri" v = some r ∧
      jKeys r = some ["authentication", "value"]) ∧
    (∃ r, jLookup "safe_apps_rpc_uri" v = some r ∧
      jKeys r = some ["authentication", "value"]) ∧
    (∃ r, jLookup "block_explorer_uri_template" v = some r ∧
      jKeys r = some ["address", "tx_hash", "api"]) ∧
    (∃ r, jLookup "native_currency" v = some r ∧
      jKeys r = some ["name", "symbol", "decimals", "logo_uri"]) ∧
    (∃ r, jLookup "theme" v = some r ∧
      jKeys r = some ["text_color", "background_color"]) := by
  obtain ⟨gas, hg, hv⟩ := chain_repr_ok_shape c v h
  subst hv
  refine ⟨rfl, ⟨RpcUriSerializer.data c, ?_, rfl⟩,
    ⟨SafeAppsRpcUriSerializer.data c, ?_, rfl⟩,
    ⟨BlockExplorerUriTemplateSerializer.data c, ?_, rfl⟩,
    ⟨CurrencySerializer.data c, ?_, rfl⟩,
    ⟨ThemeSerializer.data c, ?_, rfl⟩⟩ <;>
  simp [jLookup, List.lookup]

/-- Claim C6 witness at the sample chain. -/
theorem chain_repr_field_layout_witness :
    jKeys chainReprSample = some chainFieldNames ∧
    (∃ r, jLookup "rpc_uri" chainReprSample = some r ∧
      jKeys r = some ["authentication", "value"]) ∧
    (∃ r, jLookup "safe_apps_rpc_uri" chainReprSample = some r ∧
      jKeys r = some ["authentication", "value"]) ∧
    (∃ r, jLookup "block_explorer_uri_template" chainReprSample = some r ∧
      jKeys r = some ["address", "tx_hash", "api"]) ∧
    (∃ r, jLookup "native_currency" chainReprSample = some r ∧
      jKeys r = some ["name", "symbol", "decimals", "logo_uri"]) ∧
    (∃ r, jLookup "theme" chainReprSample = some r ∧
      jKeys r = some ["text_color", "background_color"]) :=
  chain_repr_field_layout chainSample chainReprSample rfl

/-- Claim C9: a missing `transaction_service_uri` still yields a
`transaction_service` member, rendered as null via the declared
`default=None`, while `vpc_transaction_service` carries the (non-null)
`vpc_transaction_service_uri` value. -/
theorem chain_transaction_service_default (c : Chain) (v : JValue)
    (h : ChainSerializer.to_representation c = Except.ok v) :
    jLookup "transaction_service" v = some (jOfOpt c.transaction_service_uri) ∧
    (c.transaction_service_uri = none →
      jLookup "transaction_service" v = some JValue.null) ∧
    jLookup "vpc_transaction_service" v =
      some (JValue.str c.vpc_transaction_service_uri) := by
  obtain ⟨gas, hg, hv⟩ := chain_repr_ok_shape c v h
  subst hv
  refine ⟨?_, fun hn => ?_, ?_⟩
  · simp [jLookup, List.lookup]
  · simp [jLookup, List.lookup, hn, jOfOpt]
  · simp [jLookup, List.lookup]

/-- Claim C9 witness: the sample chain has no `transaction_service_uri`. -/
theorem chain_transaction_service_default_witness :
    jLookup "transaction_service" chainReprSample =
      some (jOfOpt chainSample.transaction_service_uri) ∧
    (chainSample.transaction_service_uri = none →
      jLookup "transaction_service" chainReprSample = some JValue.null) ∧
    jLookup "vpc_transaction_service" chainReprSample =
      some (JValue.str chainSample.vpc_transaction_service_uri) :=
  chain_transaction_service_default chainSample chainReprSample rfl

/-- Claim C10: the `chain_id` member is the chain's `id` rendered as a JSON
string (a `CharField` sourced from `id`), never a number. -/
theorem chain_id_rendered_as_string (c : Chain) (v : JValue)
    (h : ChainSerializer.to_representation c = Except.ok v) :
    jLookup "chain_id" v = some (JValue.str (toString c.id)) ∧
    ∀ n : Int, jLookup "chain_id" v ≠ some (JValue.num n) := by
  obtain ⟨gas, hg, hv⟩ := chain_repr_ok_shape c v h
  subst hv
  constructor
  · simp [jLookup, List.lookup]
  · intro n hcontra
    simp [jLookup, List.lookup] at hcontra

/-- Claim C10 witness at the sample chain. -/
theorem chain_id_rendered_as_string_witness :
    jLookup "chain_id" chainReprSample =
      some (JValue.str (toString chainSample.id)) ∧
    ∀ n : Int, jLookup "chain_id" chainReprSample ≠ some (JValue.num n) :=
  chain_id_rendered_as_string chainSample chainReprSample rfl

/-- Claim C7: serialization is stateless and deterministic: the serializer
leaves the instance unchanged, and re-running it on the instance it
returns produces the identical output, for chains and for gas prices. -/
theorem serializers_stateless_deterministic (c : Chain) (g : GasPrice) :
    (ChainSerializer.serialize c).2 = c ∧
    (ChainSerializer.serialize ((ChainSerializer.serialize c).2)).1 =
      (ChainSerializer.serialize c).1 ∧
    (GasPriceSerializer.serialize g).2 = g ∧
    (GasPriceSerializer.serialize ((GasPriceSerializer.serialize g).2)).1 =
      (GasPriceSerializer.serialize g).1 :=
  ⟨rfl, rfl, rfl, rfl⟩

end SafeConfig
